import Mathlib

/-!
# Verification of the Oracle CDC → SQS bridge core

A shallow embedding of the CDC pipeline of this repository:
conversation assembly (`cdc_service.py::assemble_conversation_for_source`,
`backfill_service.py::assemble_conversation`), outbound dispatch
(`send_to_sqs_for_source`, `mark_call_processed_for_source`), inbound result
ingestion (`write_ml_result` and its field-normalisation helpers
`clean_json_to_csv`, `extract_action_items_text`), the ML-quality approval
channel (`routes/ml_quality.py`), and the alert evaluator
(`routes/alert_evaluator.py`, `routes/alerts.py`).

Python dynamic values are modelled by the inductive `Val`; machine floats are
idealised as rationals; external effects (the Oracle connection, the SQS
client, `json.loads`, wall-clock time) are threaded as explicit environment
parameters so that every branch of the source, including its error branches,
is represented.
-/

mutual

/-- A Python/JSON dynamic value as it occurs in queue payloads and configs.
`num` merges Python `int` and `float` into one rational constructor (the code
under verification never branches on int-versus-float); `dict` is an
insertion-ordered association list, matching Python 3.7+ dict semantics. -/
inductive Val where
  | null : Val
  | bool : Bool → Val
  | num : ℚ → Val
  | str : String → Val
  | list : ValList → Val
  | dict : ValKvs → Val
deriving DecidableEq

/-- Elements of a Python list value. -/
inductive ValList where
  | nil : ValList
  | cons : Val → ValList → ValList
deriving DecidableEq

/-- Key/value pairs of a Python dict value. -/
inductive ValKvs where
  | nil : ValKvs
  | cons : String → Val → ValKvs → ValKvs
deriving DecidableEq

end

/-- View a `ValList` as an ordinary Lean list. -/
def ValList.toList : ValList → List Val
  | .nil => []
  | .cons x xs => x :: xs.toList

/-- Build a `ValList` from an ordinary Lean list. -/
def ValList.ofList : List Val → ValList
  | [] => .nil
  | x :: xs => .cons x (ofList xs)

/-- View a `ValKvs` as an ordinary Lean association list. -/
def ValKvs.toList : ValKvs → List (String × Val)
  | .nil => []
  | .cons k v kvs => (k, v) :: kvs.toList

/-- Build a `ValKvs` from an ordinary Lean association list. -/
def ValKvs.ofList : List (String × Val) → ValKvs
  | [] => .nil
  | (k, v) :: kvs => .cons k v (ofList kvs)

/-- Python list literal as a `Val`. -/
def vlist (xs : List Val) : Val := .list (ValList.ofList xs)

/-- Python dict literal as a `Val`. -/
def vdict (kvs : List (String × Val)) : Val := .dict (ValKvs.ofList kvs)

/-- Python truthiness: `None`, `False`, `0`, the empty string, the empty list
and the empty dict are falsy; everything else is truthy. -/
def Val.truthy : Val → Bool
  | .null => false
  | .bool b => b
  | .num q => q ≠ 0
  | .str s => s ≠ ""
  | .list xs => xs ≠ .nil
  | .dict kvs => kvs ≠ .nil

/-- Decimal rendering of a rational: exact for integers (the only case the
code compares against); non-integral values get a deterministic fraction
rendering standing in for Python float formatting, which no branch of the
code inspects. -/
def numRepr (q : ℚ) : String :=
  if q.den = 1 then toString q.num else toString q.num ++ "/" ++ toString q.den

mutual

/-- Python `repr` of a value, used by `str()` for elements inside containers.
Quoting and brackets follow CPython; numbers render via `numRepr`. -/
def pyRepr : Val → String
  | .null => "None"
  | .bool true => "True"
  | .bool false => "False"
  | .num q => numRepr q
  | .str s => "\x27" ++ s ++ "\x27"
  | .list xs => "[" ++ String.intercalate ", " (pyReprList xs) ++ "]"
  | .dict kvs => "\x7b" ++ String.intercalate ", " (pyReprKvs kvs) ++ "\x7d"

/-- Helper of `pyRepr` for list elements. -/
def pyReprList : ValList → List String
  | .nil => []
  | .cons x xs => pyRepr x :: pyReprList xs

/-- Helper of `pyRepr` for dict pairs. -/
def pyReprKvs : ValKvs → List String
  | .nil => []
  | .cons k v kvs => ("\x27" ++ k ++ "\x27: " ++ pyRepr v) :: pyReprKvs kvs

end

/-- Python `str()` of a value: identity on strings, `repr` elsewhere. -/
def pyStr : Val → String
  | .str s => s
  | v => pyRepr v

/-- Python `d.get(key, default)` over an association-list dict (keys are
unique in an insertion-ordered dict, so the first binding wins). -/
def pyGetD (d : List (String × Val)) (key : String) (dflt : Val) : Val :=
  match d.find? (fun kv => kv.1 = key) with
  | some kv => kv.2
  | none => dflt

/-- Python `d.get(key)`: `None` when the key is absent. -/
def pyGet (d : List (String × Val)) (key : String) : Val :=
  pyGetD d key .null

/-- Python `d[key] = v`: replace the existing binding in place, append
otherwise. -/
def pySet (d : List (String × Val)) (key : String) (v : Val) : List (String × Val) :=
  if d.any (fun kv => kv.1 = key) then
    d.map (fun kv => if kv.1 = key then (key, v) else kv)
  else d ++ [(key, v)]

/-- Python `int()`: truncation toward zero for numbers, 0/1 for bools, strict
decimal parse for strings; `none` models the exception raised on any other
shape. -/
def pyInt : Val → Option Int
  | .num q => some (q.num.tdiv (q.den : Int))
  | .bool b => some (if b then 1 else 0)
  | .str s => s.toInt?
  | _ => none

/-- Python `float()` idealised over ℚ: numbers pass through, bools map to
0/1; string parsing and other shapes are modelled as failure (the code under
verification only ever reaches this call with numeric payload fields). -/
def pyFloat : Val → Option ℚ
  | .num q => some q
  | .bool b => some (if b then 1 else 0)
  | _ => none

/-- Python `len()` on a sized value; `none` models `TypeError`. -/
def pyLen : Val → Option Nat
  | .str s => some s.length
  | .list xs => some xs.toList.length
  | .dict kvs => some kvs.toList.length
  | _ => none

/-- Python `v[:n]` on a sliceable value; `none` models `TypeError`. -/
def pySliceTake : Val → Nat → Option Val
  | .str s, n => some (.str (s.take n))
  | .list xs, n => some (.list (ValList.ofList (xs.toList.take n)))
  | _, _ => none

/-- Python `v[0]` as it is applied to `classifications_list`: first list
element, first character of a string; `none` models the exception raised on
any other shape. -/
def pyIndexZero : Val → Option Val
  | .list (.cons x _) => some x
  | .str s => match s.toList with
    | [] => none
    | c :: _ => some (.str (String.singleton c))
  | _ => none

/-- Multiplication of a rational by 100, phrased through `mkRat` so that it
evaluates by kernel reduction on concrete inputs. -/
def qMul100 (q : ℚ) : ℚ := mkRat (q.num * 100) q.den

/-- Python `x * 100` as applied to `churn_confidence`: numbers multiply,
bools coerce to 0/1, strings and lists repeat 100-fold (Python sequence
repetition); `none` models the `TypeError` raised on `None` and dicts. -/
def pyMulHundred : Val → Option Val
  | .num q => some (.num (qMul100 q))
  | .bool b => some (.num (if b then 100 else 0))
  | .str s => some (.str (String.join (List.replicate 100 s)))
  | .list xs => some (.list (ValList.ofList (List.replicate 100 xs.toList).flatten))
  | _ => none

/-- Python `", ".join(xs)`: every element must already be a string; `none`
models the `TypeError` raised otherwise. -/
def pyJoinCommaSpace (xs : List Val) : Option String :=
  if xs.all (fun v => match v with | .str _ => true | _ => false) then
    some (String.intercalate ", " (xs.filterMap (fun v =>
      match v with | .str s => some s | _ => none)))
  else none

/-- Python `x or y`: the first operand when truthy, otherwise the second. -/
def pyOr (x y : Val) : Val := if x.truthy then x else y

/-- Python `str.strip()` (whitespace from both ends), written over the
character list so that it evaluates by kernel reduction. -/
def pyTrim (s : String) : String :=
  String.mk (((s.toList.dropWhile Char.isWhitespace).reverse.dropWhile
    Char.isWhitespace).reverse)

/-- Python `str.lower()`, written over the character list (ASCII case
folding, the only case the compared literals exercise). -/
def pyLower (s : String) : String :=
  String.mk (s.toList.map Char.toLower)

/-- Helper of `pySplitComma`: split a character list at commas. -/
def splitCommaAux : List Char → List Char → List String
  | [], acc => [String.mk acc.reverse]
  | c :: rest, acc =>
    if c = ',' then String.mk acc.reverse :: splitCommaAux rest []
    else splitCommaAux rest (c :: acc)

/-- Python `str.split(",")`. -/
def pySplitComma (s : String) : List String :=
  splitCommaAux s.toList []

/-! ## Source catalog (`config.py::TABLE_SOURCES`, `MESSAGE_TYPES`) -/

/-- One entry of `TABLE_SOURCES` in `config.py`: the frozen per-source
metadata driving collection, assembly and routing. -/
structure SourceEntry where
  tableName : String
  idColumn : String
  timeColumn : String
  textTimeColumn : String
  validChannels : List String
  requiredChannels : List String
  indexHint : String
  baseFilter : String
  timeFilter : String
  cdcModeKey : String
  minSegments : Nat
  enabled : Bool
  destSourceType : String
deriving DecidableEq

/-- The `verint` entry of `TABLE_SOURCES`. -/
def verintSource : SourceEntry where
  tableName := "VERINT_TEXT_ANALYSIS"
  idColumn := "CALL_ID"
  timeColumn := "CALL_TIME"
  textTimeColumn := "CALL_TIME"
  validChannels := ["A", "C"]
  requiredChannels := ["A", "C"]
  indexHint := "/*+ index (VERINT_TEXT_ANALYSIS VERINT_TEXT_ANALYSIS_3ix) */"
  baseFilter := ""
  timeFilter := "CALL_TIME > SYSDATE - (120 / 1440)"
  cdcModeKey := "CDC_NORMAL_MODE"
  minSegments := 11
  enabled := true
  destSourceType := "CALL"

/-- The `sf_oc` entry of `TABLE_SOURCES`. -/
def sfOcSource : SourceEntry where
  tableName := "SF_OC_TEXT_ANALYSIS_TEMP"
  idColumn := "CASE_ID"
  timeColumn := "CASE_DATE"
  textTimeColumn := "MESSAGE_DATE"
  validChannels := ["A", "B", "C"]
  requiredChannels := ["C"]
  indexHint := ""
  baseFilter := "channel_code <> 2 AND last_run_date > trunc(sysdate) AND CHANNEL_DESC = \x27WhatsApp\x27 AND TEXT IS NOT NULL"
  timeFilter := "case_date > trunc(sysdate) - 7"
  cdcModeKey := "CDC_NORMAL_MODE_SF_OC"
  minSegments := 5
  enabled := true
  destSourceType := "WAPP"

/-- The `TABLE_SOURCES` mapping of `config.py`. -/
def tableSources : List (String × SourceEntry) :=
  [("verint", verintSource), ("sf_oc", sfOcSource)]

/-- Lookup in `TABLE_SOURCES`; `none` models the `KeyError` on an unknown
source identifier. -/
def lookupSource (sourceId : String) : Option SourceEntry :=
  (tableSources.find? (fun kv => kv.1 = sourceId)).map (fun kv => kv.2)

/-- The value `MESSAGE_TYPES` maps `CONVERSATION_TO_ML` to in `config.py`. -/
def msgTypeConversationToMl : String := "CONVERSATION_ASSEMBLY"

/-- The value `MESSAGE_TYPES` maps `ML_RESULT` to in `config.py`. -/
def msgTypeMlResult : String := "ML_PROCESSING_RESULT"

/-! ## Conversation assembly

`assemble_conversation_for_source` (cdc_service.py, lines 864-960) and
`assemble_conversation` (backfill_service.py, lines 191-249).  The fragment
rows delivered by the per-id query — already ordered by the fragment-time
column ascending — are the function input; database values are modelled
with `Option` for SQL NULL. -/

/-- One fragment row of the per-id query: the id column, BAN, SUBSCRIBER_NO,
OWNER (channel tag), the fragment-time column (as its ISO rendering) and the
4000-byte TEXT prefix. -/
structure Frag where
  ban : Val
  subscriberNo : Val
  owner : Option String
  time : Option String
  text : Option String
deriving DecidableEq

/-- Truthiness of the OWNER column as tested by `if row[3]`. -/
def Frag.channel : Frag → Option String
  | f => match f.owner with
    | some s => if s = "" then none else some s
    | none => none

/-- Whether a fragment's TEXT passes `if text_content and str(text_content).strip()`. -/
def Frag.textKept : Frag → Bool
  | f => match f.text with
    | some s => s ≠ "" && pyTrim s ≠ ""
    | none => false

/-- One entry of the assembled `messages` array. -/
structure Msg where
  channel : Option String
  text : String
  timestamp : Option String
deriving DecidableEq

/-- The assembled conversation document. -/
structure Conv where
  type : String
  callId : String
  ban : Val
  subscriberNo : Val
  callTime : Option String
  messages : List Msg
  messageCount : Nat
  assembledAt : String
  source : String
  sourceId : Option String
deriving DecidableEq

/-- The observed channel set `set(row[3] for row in rows if row[3])`,
as a deduplicated list. -/
def observedChannels (rows : List Frag) : List String :=
  (rows.filterMap Frag.channel).dedup

/-- The `required_channels.issubset(channels)` test. -/
def requiredSubset (required : List String) (rows : List Frag) : Bool :=
  required.all (fun c => c ∈ observedChannels rows)

/-- Embedding of `OracleCDCService.assemble_conversation_for_source`
(cdc_service.py, lines 864-960): gate on a non-empty row set, the per-source
minimum segment count and required-channel coverage, then build messages from
fragments whose text is non-empty after trimming (the text itself is kept
untrimmed) and emit the conversation document.  `sourceId` is the catalog key
the caller passes, `src` the entry `TABLE_SOURCES[source_id]` resolves to. -/
def assembleConversationForSource (sourceId : String) (src : SourceEntry)
    (recordId : String) (rows : List Frag) (now : String) : Option Conv :=
  match rows with
  | [] => none
  | first :: _ =>
    if rows.length < src.minSegments then none
    else if ¬ requiredSubset src.requiredChannels rows then none
    else
      let messages := rows.filterMap (fun f =>
        if f.textKept then some (⟨f.owner, f.text.getD "", f.time⟩ : Msg) else none)
      some {
        type := msgTypeConversationToMl
        callId := recordId
        ban := first.ban
        subscriberNo := first.subscriberNo
        callTime := first.time
        messages := messages
        messageCount := messages.length
        assembledAt := now
        source := "on-premises-cdc"
        sourceId := some sourceId }

/-- Embedding of `BackfillService.assemble_conversation`
(backfill_service.py, lines 191-249): fixed channel requirement A and C,
backfill minimum segment count (`self.min_segments = 16`), messages built
from trimmed non-empty texts (stored trimmed here, unlike the CDC variant),
and — unlike the CDC variant — an explicit empty-message rejection. -/
def backfillAssembleConversation (minSegments : Nat) (callId : String)
    (rows : List Frag) (now : String) : Option Conv :=
  if rows.length < minSegments then none
  else if ¬ ("A" ∈ observedChannels rows ∧ "C" ∈ observedChannels rows) then none
  else
    let messages := rows.filterMap (fun f =>
      if f.textKept then some (⟨f.owner, pyTrim (f.text.getD ""), f.time⟩ : Msg) else none)
    if messages.isEmpty then none
    else
      match rows with
      | [] => none
      | first :: _ =>
        some {
          type := "CONVERSATION_ASSEMBLY"
          callId := callId
          ban := first.ban
          subscriberNo := first.subscriberNo
          callTime := first.time
          messages := messages
          messageCount := messages.length
          assembledAt := now
          source := "backfill-service"
          sourceId := none }

/-- The backfill configuration value `self.min_segments` (backfill_service.py
line 53). -/
def backfillMinSegments : Nat := 16

/-! ## Outbound dispatch

`send_to_sqs_for_source` (cdc_service.py, lines 967-1029) and
`mark_call_processed_for_source` (lines 1460-1503).  The SQS client and the
marking INSERT are external effects, threaded through `DispatchEnv`. -/

/-- One appended `ERROR_LOG` row (`log_error`, cdc_service.py lines
1532-1548). -/
structure ErrEntry where
  callId : String
  message : String
  kind : String
deriving DecidableEq

/-- The dispatcher-visible service state: the `CDC_PROCESSED_CALLS` id set
(the row payload `SQS_MESSAGE_ID` / `TEXT_TIME` is carried by the store but
never branched on, so the store is modelled by its id set), the append-only
`ERROR_LOG`, the process-local `pending_source_types` map and the two send
counters of `self.stats`. -/
structure SvcState where
  processed : List String
  errorLog : List ErrEntry
  pendingSourceTypes : List (String × String)
  totalSqsSent : Nat
  totalSqsFailed : Nat
deriving DecidableEq

/-- Assignment `m[k] = v` on a string-keyed Python dict. -/
def assocSet (m : List (String × String)) (k v : String) : List (String × String) :=
  if m.any (fun kv => kv.1 = k) then
    m.map (fun kv => if kv.1 = k then (k, v) else kv)
  else m ++ [(k, v)]

/-- External outcomes of one dispatch attempt: the result of
`sqs_client.send_message` (`none` models a raised send error, `some id` the
returned MessageId), whether the `INSERT INTO CDC_PROCESSED_CALLS` statement
succeeds, whether the `INSERT INTO ERROR_LOG` statement succeeds, and the
text of the raised exception. -/
structure DispatchEnv where
  sendResult : Option String
  markDbOk : Bool
  logDbOk : Bool
  errText : String

/-- Embedding of `OracleCDCService.log_error` (cdc_service.py, lines
1532-1553): append one row to `ERROR_LOG`; a failing insert is caught,
logged and swallowed, leaving the table unchanged. -/
def logError (logDbOk : Bool) (callId message kind : String)
    (errorLog : List ErrEntry) : List ErrEntry :=
  if logDbOk then errorLog ++ [⟨callId, message, kind⟩] else errorLog

/-- Embedding of `OracleCDCService.mark_call_processed_for_source`
(cdc_service.py, lines 1460-1503): insert the id only when the
`SELECT COUNT(*)` probe finds it absent; a failing insert is caught, logged
and swallowed, leaving the store unchanged. -/
def markCallProcessedForSource (env : DispatchEnv) (callId : String)
    (st : SvcState) : SvcState :=
  if callId ∈ st.processed then st
  else if env.markDbOk then { st with processed := st.processed ++ [callId] }
  else st

/-- Embedding of `OracleCDCService.send_to_sqs_for_source` (cdc_service.py,
lines 967-1029).  On a successful send the pending-source-type map is
updated, the id is marked processed and the MessageId returned; any exception
in the try block — including the send itself — is caught, logged as
`SQS_SEND_FAILED` and answered with `None`.  A `TABLE_SOURCES` lookup miss
after a successful send lands in the same handler. -/
def sendToSqsForSource (env : DispatchEnv) (c : Conv) (sourceId : String)
    (st : SvcState) : Option String × SvcState :=
  let callId := c.callId
  let failed : SvcState :=
    { st with
      errorLog := logError env.logDbOk callId env.errText "SQS_SEND_FAILED" st.errorLog
      totalSqsFailed := st.totalSqsFailed + 1 }
  match env.sendResult with
  | none => (none, failed)
  | some msgId =>
    match lookupSource sourceId with
    | none => (none, failed)
    | some src =>
      let st1 := { st with
        pendingSourceTypes := assocSet st.pendingSourceTypes callId src.destSourceType }
      let st2 := markCallProcessedForSource env callId st1
      (some msgId, { st2 with totalSqsSent := st2.totalSqsSent + 1 })

/-! ## Inbound result normalisation

Helpers of `write_ml_result` (cdc_service.py, lines 1161-1421) and the
module-level `clean_json_to_csv` / `extract_action_items_text`
(cdc_service.py, lines 29-165).  The payload is the parsed message body, a
Python dict modelled as an association list. -/

/-- A parsed inbound message body. -/
abbrev PyDict := List (String × Val)

/-- The fixed sentiment string map of cdc_service.py lines 1181-1182.  The
first, third, fifth and seventh keys are the Hebrew labels exactly as the
code points stored in the source file. -/
def sentimentMap : List (String × Int) :=
  [("◊ó◊ô◊ï◊ë◊ô", 4), ("positive", 4),
   ("◊©◊ú◊ô◊ú◊ô", 2), ("negative", 2),
   ("◊†◊ô◊ô◊ò◊®◊ú◊ô", 3), ("neutral", 3),
   ("◊û◊¢◊ï◊®◊ë", 3), ("mixed", 3), ("unknown", 3)]

/-- Lookup in `sentiment_map` with the literal default 3. -/
def sentimentMapGet (s : String) : Int :=
  ((sentimentMap.find? (fun kv => kv.1 = s)).map (fun kv => kv.2)).getD 3

/-- The value `sentiment_raw` of cdc_service.py lines 1172-1177: a dict
payload contributes its `overall` (default 3), anything else passes through
when truthy and defaults to 3 otherwise. -/
def sentimentRawOf (r : PyDict) : Val :=
  match pyGetD r "sentiment" (vdict []) with
  | .dict kvs => pyGetD kvs.toList "overall" (.num 3)
  | v => if v.truthy then v else .num 3

/-- The numeric `sentiment` of cdc_service.py lines 1179-1185: strings go
through the fixed map (lower-cased and stripped, default 3), any other truthy
raw value through `int()` — with no range clamp — and falsy raws become 3.
`none` models the exception `int()` raises on unconvertible shapes. -/
def sentimentOf (r : PyDict) : Option Int :=
  match sentimentRawOf r with
  | .str s => some (sentimentMapGet (pyTrim (pyLower s)))
  | v => if v.truthy then pyInt v else some 3

/-- The pair `(classification, all_classifications)` of cdc_service.py lines
1187-1200.  `none` models the exceptions raised by `len()` or `[0]` on
unsized truthy `classifications` payloads. -/
def classificationOf (r : PyDict) : Option (Val × Val) :=
  let cd := pyGetD r "classification" (vdict [])
  let cl := pyGetD r "classifications" (vlist [])
  let dictPrimary : Option Val :=
    match cd with
    | .dict kvs =>
      let p := pyGetD kvs.toList "primary" Val.null
      if p.truthy then some p else none
    | _ => none
  match dictPrimary with
  | some p =>
    match cd with
    | .dict kvs => some (p, pyGetD kvs.toList "all" (vlist []))
    | _ => none
  | none =>
    let elseBranch : Val × Val :=
      (if cd.truthy then .str (pyStr cd) else .str "unknown", vlist [])
    if cl.truthy then
      match pyLen cl with
      | none => none
      | some n =>
        if n > 0 then
          match pyIndexZero cl with
          | none => none
          | some first => some (first, cl)
        else some elseBranch
    else some elseBranch

/-- The value `summary_text` of cdc_service.py lines 1202-1207: a dict
payload contributes its `text` (default empty string, kept raw), anything
else is stringified when truthy and becomes the empty string otherwise. -/
def summaryValOf (r : PyDict) : Val :=
  match pyGetD r "summary" (.str "") with
  | .dict kvs => pyGetD kvs.toList "text" (.str "")
  | v => if v.truthy then .str (pyStr v) else .str ""

/-- Character deletion performed by the `clean`/`cleaned` loops of
`clean_json_to_csv` and `extract_action_items_text`: every occurrence of
square bracket, curly brace, double quote and single quote is removed. -/
def stripBrackets (s : String) : String :=
  String.mk (s.toList.filter (fun ch =>
    ch ≠ '[' && ch ≠ ']' && ch ≠ '\x7b' && ch ≠ '\x7d' && ch ≠ '\"' && ch ≠ '\x27'))

/-- The helper `clean_str` of `clean_json_to_csv`: bracket/quote removal
followed by a strip. -/
def cleanStrFn (s : String) : String := pyTrim (stripBrackets s)

/-- The list branch of `clean_json_to_csv`: clean the stringification of each
truthy item and join the non-empty results with a comma-space. -/
def cleanedListJoin (xs : List Val) : String :=
  String.intercalate ", "
    (((xs.filter Val.truthy).map (fun i => cleanStrFn (pyStr i))).filter (fun t => t ≠ ""))

/-- The dict branch of `clean_json_to_csv`: format each truthy-valued pair as
a colon-separated entry and join with a comma-space. -/
def cleanedDictJoin (kvs : List (String × Val)) : String :=
  String.intercalate ", "
    ((kvs.filter (fun kv => kv.2.truthy)).map (fun kv =>
      kv.1 ++ ": " ++ cleanStrFn (pyStr kv.2)))

/-- Embedding of `clean_json_to_csv` (cdc_service.py, lines 113-165);
`jsonLoads` stands for the external `json.loads`, with `none` covering both
a parse failure and any non-list, non-dict parse (either way the code falls
through to the manual bracket cleanup). -/
def cleanJsonToCsv (jsonLoads : String → Option Val) (v : Val) : String :=
  if ¬ v.truthy then ""
  else match v with
  | .list xs => cleanedListJoin xs.toList
  | .dict kvs => cleanedDictJoin kvs.toList
  | .str s0 =>
    let s := pyTrim s0
    match jsonLoads s with
    | some (.list xs) => cleanedListJoin xs.toList
    | some (.dict kvs) => cleanedDictJoin kvs.toList
    | _ =>
      let cleaned := stripBrackets s
      String.intercalate ", "
        (((pySplitComma cleaned).map pyTrim).filter (fun t => t ≠ ""))
  | v => pyStr v

/-- The helper `extract_text_from_dict` of `extract_action_items_text`: the
first priority field that is present, truthy, and whose stripped
stringification is neither empty nor the literal word none. -/
def extractTextFromDict (kvs : List (String × Val)) : String :=
  let fields := ["action", "description", "name", "instructions", "task", "item", "text"]
  (fields.findSome? (fun f =>
    let v := pyGetD kvs f Val.null
    if v.truthy then
      let t := pyTrim (pyStr v)
      if t ≠ "" && pyLower t ≠ "none" then some t else none
    else none)).getD ""

/-- Index of the last comma of a string, mirroring `str.rfind`. -/
def lastCommaIdx (s : String) : Option Nat :=
  match (s.toList.reverse).findIdx? (fun ch => ch = ',') with
  | some j => some (s.length - 1 - j)
  | none => none

/-- Python `result.rstrip(", ")`: remove trailing commas and spaces. -/
def rstripCommaSpace (s : String) : String :=
  String.mk ((s.toList.reverse.dropWhile (fun ch => ch = ',' || ch = ' ')).reverse)

/-- The action texts collected from an already-parsed list or dict by
`extract_action_items_text`. -/
def actionTextsOf : Val → List String
  | .list xs =>
    xs.toList.filterMap (fun item =>
      match item with
      | .dict kvs =>
        let t := extractTextFromDict kvs.toList
        if t ≠ "" then some t else none
      | _ =>
        if item.truthy && pyTrim (pyStr item) ≠ "" && pyLower (pyStr item) ≠ "none" then
          some (pyTrim (pyStr item))
        else none)
  | .dict kvs =>
    let t := extractTextFromDict kvs.toList
    if t ≠ "" then [t] else []
  | _ => []

/-- The final truncation of `extract_action_items_text` (lines 101-108): cut
at `max_length`, prefer the last complete item when that keeps more than half
of the cut, then strip trailing separators. -/
def truncateActionItems (result : String) (maxLength : Nat) : String :=
  if result.length > maxLength then
    let r1 := result.take maxLength
    let r2 :=
      match lastCommaIdx r1 with
      | some i => if 2 * i > maxLength then r1.take i else r1
      | none => r1
    rstripCommaSpace r2
  else result

/-- Embedding of `extract_action_items_text` (cdc_service.py, lines 29-110).
A string input is parsed via the external `json.loads`; on failure the
bracket-cleaned prefix is returned directly, otherwise the parse result is
scanned for action texts, joined and truncated. -/
def extractActionItemsText (jsonLoads : String → Option Val) (v : Val)
    (maxLength : Nat) : String :=
  if ¬ v.truthy then ""
  else
    match v with
    | .str s0 =>
      let s := pyTrim s0
      match jsonLoads s with
      | some parsed =>
        truncateActionItems (String.intercalate ", " (actionTextsOf parsed)) maxLength
      | none => pyTrim ((stripBrackets s).take maxLength)
    | _ => truncateActionItems (String.intercalate ", " (actionTextsOf v)) maxLength

/-! ## Inbound result persistence

`write_ml_result` (cdc_service.py, lines 1161-1421): three per-destination
transactions — `DICTA_CALL_SUMMARY` delete-then-insert, then
`CONVERSATION_SUMMARY` delete-then-insert, then `CONVERSATION_CATEGORY`
delete-then-insert-per-label — each committed separately, each rolled back
in isolation on failure. -/

/-- One `DICTA_CALL_SUMMARY` row as inserted by lines 1236-1248. -/
structure DictaRow where
  callId : String
  customerId : Val
  subscriberNo : Val
  callTime : Val
  summary : Val
  sentiment : Int
  classification : Val
  allClassifications : String
  confidence : ℚ
  processingTime : Int
  modelVersion : String
  processedAt : String
deriving DecidableEq

/-- One `CONVERSATION_SUMMARY` row as inserted by lines 1324-1347.  The
`source_id` bind is the raw payload `callId` value (not its
stringification), and `sentiment` is the string-flavoured re-extraction of
lines 1255-1260, not the numeric one. -/
structure ConvSummaryRow where
  sourceType : String
  sourceId : Val
  creationDate : String
  summary : Val
  satisfaction : Val
  sentiment : Val
  products : String
  unresolvedIssues : String
  actionItems : String
  ban : Val
  subscriberNo : Val
  conversationTime : Val
  churnScore : Val
deriving DecidableEq

/-- One `CONVERSATION_CATEGORY` row as inserted by lines 1389-1396. -/
structure CategoryRow where
  sourceId : Val
  sourceType : String
  creationDate : String
  categoryCode : String
deriving DecidableEq

/-- The destination-table state owned by the ingestor. -/
structure DestState where
  dicta : List DictaRow
  convSummary : List ConvSummaryRow
  categories : List CategoryRow
deriving DecidableEq

/-- The empty destination state. -/
def DestState.empty : DestState := ⟨[], [], []⟩

/-- The row returned by the per-source BAN/SUBSCRIBER_NO/time lookup of lines
1283-1302 (NULL columns as `Val.null`, `none` for an empty fetch). -/
structure SrcRow where
  ban : Val
  subscriberNo : Val
  textTime : Val
deriving DecidableEq

/-- External effects of one `write_ml_result` call: the `json.loads` used by
the list normalisers, the originating-source-table lookup (keyed by the
derived source type and the raw `callId` bind), whether each of the three
destination transactions succeeds on the database side, and the `SYSDATE` /
`SYSTIMESTAMP` of the call. -/
structure MlEnv where
  jsonLoads : String → Option Val
  srcRow : String → Val → Option SrcRow
  dictaDbOk : Bool
  convDbOk : Bool
  catDbOk : Bool
  now : String

/-- The `insert_params` computed by lines 1216-1227 together with the raw
`classification` value (reused by the category block); `none` models an
exception raised while normalising, which aborts the call before any
database statement runs. -/
structure DictaParams where
  customerId : Val
  subscriberNo : Val
  callTime : Val
  summary : Val
  sentiment : Int
  classificationRaw : Val
  classificationTrunc : Val
  allClassifications : String
  confidence : ℚ
  processingTime : Int
  modelVersion : String
deriving DecidableEq

/-- Normalisation phase of `write_ml_result` (lines 1172-1227). -/
def dictaParamsOf (r : PyDict) : Option DictaParams := do
  let sentiment ← sentimentOf r
  let cls ← classificationOf r
  let summaryV := summaryValOf r
  let summaryTrunc ← if summaryV.truthy then pySliceTake summaryV 4000 else pure (Val.str "")
  let clsTrunc ← if cls.1.truthy then pySliceTake cls.1 100 else pure (Val.str "unknown")
  let allTxt ←
    match cls.2 with
    | .list xs => pyJoinCommaSpace xs.toList
    | v => pure (pyStr v)
  let conf ←
    match pyGet r "confidence" with
    | .null => pure (0 : ℚ)
    | v => pyFloat v
  let pt ← pyInt (pyGetD r "processingTime" (.num 0))
  pure {
    customerId := pyOr (pyGet r "ban") (pyGet r "customerId")
    subscriberNo := pyOr (pyGet r "subscriberNo") (pyGet r "subscriber_no")
    callTime := pyOr (pyGet r "callTime") (pyGet r "call_time")
    summary := summaryTrunc
    sentiment := sentiment
    classificationRaw := cls.1
    classificationTrunc := clsTrunc
    allClassifications := allTxt
    confidence := conf
    processingTime := pt
    modelVersion := (pyStr (pyGetD r "modelVersion" (.str "dictalm-2.0"))).take 50 }

/-- The `churn_score` computed by lines 1271-1272: the payload
`churn_confidence` (default 0.0) multiplied by 100 — with no clamp. -/
def churnScoreValOf (r : PyDict) : Option Val :=
  pyMulHundred (pyGetD r "churn_confidence" (.num 0))

/-- The string-flavoured `sentiment_value` of lines 1255-1260. -/
def sentimentValueOf (r : PyDict) : Val :=
  match pyGetD r "sentiment" (vdict []) with
  | .dict kvs => pyGetD kvs.toList "overall" (.str "neutral")
  | v => if v.truthy then .str (pyStr v) else .str "neutral"

/-- The deduplicated category label list of lines 1356-1376, starting from
`classifications`, falling back to `classification.all`, then to the primary
`classification`; a bare string is wrapped, dict iteration yields its keys,
and `none` models the `TypeError` of iterating a non-iterable payload. -/
def catLabelsOf (r : PyDict) (classification : Val) : Option (List Val) :=
  let a0 := pyGetD r "classifications" (vlist [])
  let a1 :=
    if a0.truthy then a0
    else
      match pyGetD r "classification" (vdict []) with
      | .dict kvs => pyGetD kvs.toList "all" (vlist [])
      | _ => a0
  let a2 :=
    if a1.truthy then a1
    else if classification.truthy then vlist [classification] else vlist []
  let a3 := match a2 with | .str s => vlist [.str s] | v => v
  match a3 with
  | .list xs => some ((xs.toList.filter (fun c => c.truthy && pyTrim (pyStr c) ≠ "")).dedup)
  | .dict kvs => some (((kvs.toList.map (fun kv => Val.str kv.1)).filter
      (fun c => c.truthy && pyTrim (pyStr c) ≠ "")).dedup)
  | _ => none

/-- The `CONVERSATION_CATEGORY` row built for one label. -/
def mkCategoryRow (callIdV : Val) (sourceType : String) (now : String)
    (label : Val) : CategoryRow :=
  ⟨callIdV, sourceType, now, (pyStr label).take 255⟩

/-- Body of `write_ml_result` after the source-type derivation (cdc_service
lines 1169-1421), for an already-fixed `source_type`.  Returns the reported
success flag and the new destination state; each destination block that
fails rolls back only its own uncommitted statements, so earlier committed
blocks survive a later failure. -/
def writeMlResultWith (env : MlEnv) (sourceType : String) (r : PyDict)
    (s : DestState) : Bool × DestState :=
  let callIdV := pyGetD r "callId" (.str "UNKNOWN")
  let cid := pyStr callIdV
  match dictaParamsOf r with
  | none => (false, s)
  | some p =>
    if ¬ env.dictaDbOk then (false, s)
    else
      let dictaRow : DictaRow :=
        ⟨cid, p.customerId, p.subscriberNo, p.callTime, p.summary, p.sentiment,
         p.classificationTrunc, p.allClassifications, p.confidence,
         p.processingTime, p.modelVersion, env.now⟩
      let s1 : DestState :=
        { s with dicta := s.dicta.filter (fun row => row.callId ≠ cid) ++ [dictaRow] }
      match churnScoreValOf r with
      | none => (false, s1)
      | some churn =>
        if ¬ env.convDbOk then (false, s1)
        else
          let srcRow := env.srcRow sourceType callIdV
          let convRow : ConvSummaryRow :=
            { sourceType := sourceType
              sourceId := callIdV
              creationDate := env.now
              summary := p.summary
              satisfaction := pyGetD r "customer_satisfaction" (.num 3)
              sentiment := sentimentValueOf r
              products := cleanJsonToCsv env.jsonLoads (pyGetD r "products" (.str ""))
              unresolvedIssues := cleanJsonToCsv env.jsonLoads (pyGetD r "unresolved_issues" (.str ""))
              actionItems := extractActionItemsText env.jsonLoads
                (pyGetD r "action_items" (.str "")) 500
              ban := (srcRow.map SrcRow.ban).getD .null
              subscriberNo := (srcRow.map SrcRow.subscriberNo).getD .null
              conversationTime := (srcRow.map SrcRow.textTime).getD .null
              churnScore := churn }
          let s2 : DestState :=
            { s1 with convSummary :=
                s1.convSummary.filter (fun row =>
                  ¬ (row.sourceId = callIdV ∧ row.sourceType = sourceType)) ++ [convRow] }
          match catLabelsOf r p.classificationRaw with
          | none => (false, s2)
          | some labels =>
            if ¬ env.catDbOk then (false, s2)
            else
              let s3 : DestState :=
                { s2 with categories :=
                    s2.categories.filter (fun row =>
                      ¬ (row.sourceId = callIdV ∧ row.sourceType = sourceType)) ++
                    labels.map (mkCategoryRow callIdV sourceType env.now) }
              (true, s3)

/-- The source type `pending_source_types.pop(str(call_id), 'CALL')` reads
at cdc_service.py line 1166: the pending-map entry for the stringified
payload `callId`, defaulting to CALL. -/
def derivedSourceType (pending : List (String × String)) (r : PyDict) : String :=
  ((pending.find? (fun kv => kv.1 = pyStr (pyGetD r "callId" (.str "UNKNOWN")))).map
    (fun kv => kv.2)).getD "CALL"

/-- Embedding of `OracleCDCService.write_ml_result` (cdc_service.py, lines
1161-1421) including its first statement: the `pending_source_types.pop`
that derives the destination source type (default CALL) and removes the
entry before any destination write. -/
def writeMlResult (env : MlEnv) (pending : List (String × String)) (r : PyDict)
    (s : DestState) : Bool × List (String × String) × DestState :=
  let cid := pyStr (pyGetD r "callId" (.str "UNKNOWN"))
  let pending2 := pending.filter (fun kv => kv.1 ≠ cid)
  let (ok, s2) := writeMlResultWith env (derivedSourceType pending r) r s
  (ok, pending2, s2)

/-! ## ML-quality approval channel (`routes/ml_quality.py`)

The object store holds parsed JSON configs keyed by object key; the
notification channel is the append-only list of sent reload messages; the
recommendation table is a row list.  `api_ml_approve` (lines 96-183),
`api_ml_apply` (lines 186-217) and `api_ml_reject` (lines 220-246). -/

/-- One `ML_CONFIG_RECOMMENDATIONS` row; `recDetails` is the parsed
`REC_DETAILS` JSON document. -/
structure MlRec where
  recId : String
  recType : String
  recDetails : Val
  status : String
  approvedBy : Option String
  approvedAt : Option String
  notes : Option String
deriving DecidableEq

/-- One reload notification sent on the config SQS channel. -/
structure Notif where
  action : String
  triggeredBy : String
  timestamp : String
deriving DecidableEq

/-- World state touched by the approval channel. -/
structure MlWorld where
  s3 : List (String × Val)
  notifications : List Notif
  recs : List MlRec
deriving DecidableEq

/-- Python iteration over a value as consumed by `set(...)`: lists yield
elements, strings their characters, dicts their keys; `none` models the
`TypeError` on non-iterables. -/
def pyIter : Val → Option (List Val)
  | .list xs => some xs.toList
  | .str s => some (s.toList.map (fun ch => .str (String.singleton ch)))
  | .dict kvs => some (kvs.toList.map (fun kv => Val.str kv.1))
  | _ => none

/-- Division of a rational by 100 phrased through `mkRat` for kernel
evaluation (`new_threshold / 100.0`). -/
def qDiv100 (q : ℚ) : ℚ := mkRat q.num (q.den * 100)

/-- Python `x / 100.0`; `none` models `TypeError` on non-numbers. -/
def pyDivHundred : Val → Option Val
  | .num q => some (.num (qDiv100 q))
  | .bool b => some (.num (if b then qDiv100 1 else 0))
  | _ => none

/-- The object-store key of the keyword config artifact. -/
def keywordsKey : String := "configs/classification-keywords.json"

/-- The object-store key of the classification config artifact. -/
def classificationsKey : String := "configs/call-classifications.json"

/-- Lookup of an object-store artifact. -/
def s3Get (w : List (String × Val)) (key : String) : Option Val :=
  (w.find? (fun kv => kv.1 = key)).map (fun kv => kv.2)

/-- Upload of an object-store artifact (replace or create). -/
def s3Put (w : List (String × Val)) (key : String) (v : Val) : List (String × Val) :=
  if w.any (fun kv => kv.1 = key) then
    w.map (fun kv => if kv.1 = key then (key, v) else kv)
  else w ++ [(key, v)]

/-- The `churn_keywords` mutation of `api_ml_approve` (lines 126-142): read
the current keyword config, union the recommended keywords into
`churn_keywords.medium` (the read uses defaulting `get`s but the assignment
requires an existing `churn_keywords` dict), and answer the updated config.
`none` models any raised exception in the block. -/
def mutateKeywordsConfig (config : Val) (recDetails : Val) : Option Val := do
  let details ← match recDetails with | .dict kvs => some kvs.toList | _ => none
  let newKeywords ← pyIter (pyGetD details "keywords" (vlist []))
  let configKvs ← match config with | .dict kvs => some kvs.toList | _ => none
  let churnSection := pyGetD configKvs "churn_keywords" (vdict [])
  let existingMedium ←
    match churnSection with
    | .dict kvs => pyIter (pyGetD kvs.toList "medium" (vlist []))
    | _ => none
  let merged := vlist ((existingMedium ++ newKeywords).dedup)
  let target ← match pyGetD configKvs "churn_keywords" Val.null with
    | .dict kvs => some kvs.toList
    | _ => none
  pure (.dict (ValKvs.ofList (pySet configKvs "churn_keywords"
    (.dict (ValKvs.ofList (pySet target "medium" merged))))))

/-- The `churn_threshold` mutation of `api_ml_approve` (lines 145-161): set
`churn_detection.threshold` to the recommended value over 100 when a
`churn_detection` section exists, leaving the config untouched otherwise.
`none` models any raised exception in the block. -/
def mutateThresholdConfig (config : Val) (recDetails : Val) : Option Val := do
  let details ← match recDetails with | .dict kvs => some kvs.toList | _ => none
  let newThreshold := pyGetD details "recommended_value" (.num 40)
  let configKvs ← match config with | .dict kvs => some kvs.toList | _ => none
  if configKvs.any (fun kv => kv.1 = "churn_detection") then
    let scaled ← pyDivHundred newThreshold
    let section0 ← match pyGetD configKvs "churn_detection" Val.null with
      | .dict kvs => some kvs.toList
      | _ => none
    pure (.dict (ValKvs.ofList (pySet configKvs "churn_detection"
      (.dict (ValKvs.ofList (pySet section0 "threshold" scaled))))))
  else
    pure (.dict (ValKvs.ofList configKvs))

/-- External effects of one approve call: the `SYSTIMESTAMP` and whether the
recommendation UPDATE succeeds on the database side. -/
structure ApproveEnv where
  now : String
  dbOk : Bool

/-- The object-store side of `api_ml_approve`: the S3 state after the
per-type mutation block, `none` when the block raises (missing artifact or a
malformed document). -/
def approveS3Result (w : MlWorld) (rec : MlRec) : Option (List (String × Val)) :=
  if rec.recType = "churn_keywords" then
    match s3Get w.s3 keywordsKey with
    | none => none
    | some config =>
      (mutateKeywordsConfig config rec.recDetails).map (s3Put w.s3 keywordsKey)
  else if rec.recType = "churn_threshold" then
    match s3Get w.s3 classificationsKey with
    | none => none
    | some config =>
      (mutateThresholdConfig config rec.recDetails).map (s3Put w.s3 classificationsKey)
  else some w.s3

/-- Embedding of `api_ml_approve` (routes/ml_quality.py, lines 96-183): find
the PENDING recommendation, apply the per-type S3 mutation (none for other
types), then mark the row APPROVED.  The answered flag is the HTTP success;
an exception between the S3 write and the DB update leaves the partial
effects in place, exactly as the source does. -/
def apiMlApprove (env : ApproveEnv) (recId : String) (approver : String)
    (w : MlWorld) : MlWorld × Bool :=
  match w.recs.find? (fun rec => rec.recId = recId ∧ rec.status = "PENDING") with
  | none => (w, false)
  | some rec =>
    match approveS3Result w rec with
    | none => (w, false)
    | some s3' =>
      if env.dbOk then
        ({ w with
            s3 := s3'
            recs := w.recs.map (fun rec2 =>
              if rec2.recId = recId then
                { rec2 with status := "APPROVED", approvedBy := some approver,
                            approvedAt := some env.now }
              else rec2) }, true)
      else ({ w with s3 := s3' }, false)

/-- Embedding of `api_ml_apply` (routes/ml_quality.py, lines 186-217): send
one reload notification; on a send failure nothing changes. -/
def apiMlApply (now : String) (sendOk : Bool) (triggeredBy : String)
    (w : MlWorld) : MlWorld × Bool :=
  if sendOk then
    ({ w with notifications := w.notifications ++ [⟨"reload_configs", triggeredBy, now⟩] }, true)
  else (w, false)

/-- Embedding of `api_ml_reject` (routes/ml_quality.py, lines 220-246): the
UPDATE carries no status guard, so every row matching the id is set to
REJECTED with the formatted reason, whatever its prior status. -/
def apiMlReject (dbOk : Bool) (recId : String) (rejectedBy : String)
    (reason : String) (w : MlWorld) : MlWorld × Bool :=
  if dbOk then
    ({ w with recs := w.recs.map (fun rec =>
        if rec.recId = recId then
          { rec with status := "REJECTED",
                     notes := some ("Rejected by " ++ rejectedBy ++ ": " ++ reason) }
        else rec) }, true)
  else (w, false)

/-! ## Alert evaluation and history state machine

`evaluate_all_alerts` / `check_condition` (routes/alert_evaluator.py, lines
242-362) and the acknowledge / resolve endpoints (routes/alerts.py, lines
283-348).  The metric value and affected-subscriber snapshot computed by
`evaluate_metric` are SQL aggregates over external tables and enter the step
as inputs. -/

/-- An all-succeeding external environment for concrete evaluations of the
ingestor (no parseable JSON, no source row found, healthy database). -/
def mlEnvOk : MlEnv :=
  ⟨fun _ => none, fun _ _ => none, true, true, true, "T0"⟩

/-- Eleven fragments on channels A and C whose texts are all empty. -/
def emptyTextRows : List Frag :=
  List.replicate 6 ⟨Val.null, Val.null, some "A", none, some ""⟩ ++
    List.replicate 5 ⟨Val.null, Val.null, some "C", none, some ""⟩

/-- One application of the destination-write body to the state, the step
iterated by a redelivered result. -/
def ingestStep (env : MlEnv) (tag : String) (r : PyDict) (st : DestState) : DestState :=
  (writeMlResultWith env tag r st).2

/-! ## Supporting lemmas -/

theorem qMul100_eq (q : ℚ) : qMul100 q = q * 100 := by
  rw [qMul100, Rat.mkRat_eq_div]
  push_cast
  rw [mul_comm, mul_div_assoc, Rat.num_div_den, mul_comm]


theorem find?_assoc_update_ne {β : Type} (w : List (String × β)) (key key2 : String)
    (v : β) (h : key ≠ key2) :
    List.find? (fun kv => kv.1 = key)
      (if w.any (fun kv => kv.1 = key2) then
        w.map (fun kv => if kv.1 = key2 then (key2, v) else kv)
      else w ++ [(key2, v)]) =
    List.find? (fun kv => kv.1 = key) w := by
  split
  · rw [List.find?_map]
    have hfun : ((fun kv : String × β => decide (kv.1 = key)) ∘
        fun kv => if kv.1 = key2 then (key2, v) else kv) =
        fun kv : String × β => decide (kv.1 = key) := by
      funext kv
      by_cases hk : kv.1 = key2
      · simp [hk, Ne.symm h]
      · simp [hk]
    rw [hfun]
    cases hfind : List.find? (fun kv : String × β => decide (kv.1 = key)) w with
    | none => rfl
    | some kv =>
      have hp := List.find?_some hfind
      have hkey : kv.1 = key := by simpa using hp
      have : (if kv.1 = key2 then (key2, v) else kv) = kv := by
        rw [if_neg]
        rw [hkey]
        exact h
      simp [this]
  · rw [List.find?_append]
    have hnone : List.find? (fun kv : String × β => kv.1 = key) [(key2, v)] = none := by
      simp [Ne.symm h]
    simp [hnone]

theorem s3Get_s3Put_ne (w : List (String × Val)) (key key2 : String) (v : Val)
    (h : key ≠ key2) : s3Get (s3Put w key2 v) key = s3Get w key := by
  unfold s3Get s3Put
  rw [find?_assoc_update_ne w key key2 v h]

/-! ## C9 — reject transition -/

/-- Claim C9, counterexample: rejecting a recommendation whose status is
APPROVED does not leave it unchanged — the reject UPDATE carries no PENDING
guard, so the row flips to REJECTED. -/
theorem rejectApprovedChanges :
    ((apiMlReject true "r1" "op" "dup" ⟨[], [],
        [⟨"r1", "churn_threshold", Val.null, "APPROVED", some "alice", some "t1", none⟩]⟩).1.recs.map
      (fun rec => rec.status)) = ["REJECTED"] ∧ ("REJECTED" : String) ≠ "APPROVED" := by
  constructor
  · rfl
  · decide

/-- Claim C9 as amended: a successful reject sets every row matching the id
— whatever its prior status, PENDING or not — to REJECTED with the formatted
reason recorded in its notes, and leaves every other row untouched. -/
theorem rejectUpdatesMatchingRow (recId rb reason : String) (w : MlWorld)
    (rec : MlRec) (hmem : rec ∈ w.recs) :
    (rec.recId ≠ recId → rec ∈ ((apiMlReject true recId rb reason w).1).recs) ∧
    (rec.recId = recId →
      { rec with status := "REJECTED",
                 notes := some ("Rejected by " ++ rb ++ ": " ++ reason) } ∈
        ((apiMlReject true recId rb reason w).1).recs) := by
  unfold apiMlReject
  simp only [if_pos rfl]
  constructor
  · intro hne
    refine List.mem_map.mpr ⟨rec, hmem, ?_⟩
    simp [hne]
  · intro heq
    refine List.mem_map.mpr ⟨rec, hmem, ?_⟩
    simp [heq]

/-- Witness for `rejectUpdatesMatchingRow` at a concrete APPROVED row. -/
theorem rejectUpdatesMatchingRowWitness :
    { recId := "r1", recType := "churn_threshold", recDetails := Val.null,
      status := "REJECTED", approvedBy := some "alice", approvedAt := some "t1",
      notes := some ("Rejected by op: dup") : MlRec } ∈
      ((apiMlReject true "r1" "op" "dup" ⟨[], [],
        [⟨"r1", "churn_threshold", Val.null, "APPROVED", some "alice", some "t1", none⟩]⟩).1).recs :=
  (rejectUpdatesMatchingRow "r1" "op" "dup" _
    ⟨"r1", "churn_threshold", Val.null, "APPROVED", some "alice", some "t1", none⟩
    (List.mem_singleton.mpr rfl)).2 rfl

/-! ## C8 — approval isolation -/

theorem approveS3Result_cases (w : MlWorld) (rec : MlRec)
    (s3' : List (String × Val)) (h : approveS3Result w rec = some s3') :
    s3' = w.s3 ∨ (∃ c, s3' = s3Put w.s3 keywordsKey c) ∨
      (∃ c, s3' = s3Put w.s3 classificationsKey c) := by
  unfold approveS3Result at h
  by_cases h1 : rec.recType = "churn_keywords"
  · rw [if_pos h1] at h
    cases hget : s3Get w.s3 keywordsKey with
    | none => rw [hget] at h; exact absurd h (by simp)
    | some config =>
      rw [hget] at h
      rcases Option.map_eq_some'.mp h with ⟨c, _, hc⟩
      exact Or.inr (Or.inl ⟨c, hc.symm⟩)
  · rw [if_neg h1] at h
    by_cases h2 : rec.recType = "churn_threshold"
    · rw [if_pos h2] at h
      cases hget : s3Get w.s3 classificationsKey with
      | none => rw [hget] at h; exact absurd h (by simp)
      | some config =>
        rw [hget] at h
        rcases Option.map_eq_some'.mp h with ⟨c, _, hc⟩
        exact Or.inr (Or.inr ⟨c, hc.symm⟩)
    · rw [if_neg h2] at h
      exact Or.inl (Option.some.inj h).symm

/-- Claim C8: the approve operation never publishes a reload notification
and touches nothing in the object store beyond the two config artifacts nor
any recommendation row other than the approved one; the apply-to-service
operation leaves the object store and the recommendation table untouched
and, when its send succeeds, appends exactly one reload notification. -/
theorem approvalIsolation (env : ApproveEnv) (recId approver : String)
    (w : MlWorld) :
    ((apiMlApprove env recId approver w).1).notifications = w.notifications ∧
    (∀ key, key ≠ keywordsKey → key ≠ classificationsKey →
      s3Get ((apiMlApprove env recId approver w).1).s3 key = s3Get w.s3 key) ∧
    (∀ rec ∈ w.recs, rec.recId ≠ recId →
      rec ∈ ((apiMlApprove env recId approver w).1).recs) ∧
    (∀ now sendOk trig,
      ((apiMlApply now sendOk trig w).1).s3 = w.s3 ∧
      ((apiMlApply now sendOk trig w).1).recs = w.recs ∧
      (sendOk = true → ((apiMlApply now sendOk trig w).1).notifications =
        w.notifications ++ [⟨"reload_configs", trig, now⟩])) := by
  refine ⟨?_, ?_, ?_, ?_⟩
  · unfold apiMlApprove
    cases hfind : w.recs.find? (fun rec => decide (rec.recId = recId ∧ rec.status = "PENDING")) with
    | none => simp
    | some rec =>
      cases hs3 : approveS3Result w rec with
      | none => simp [hs3]
      | some s3' => cases hdb : env.dbOk <;> simp [hs3, hdb]
  · intro key hk1 hk2
    unfold apiMlApprove
    cases hfind : w.recs.find? (fun rec => decide (rec.recId = recId ∧ rec.status = "PENDING")) with
    | none => simp
    | some rec =>
      cases hs3 : approveS3Result w rec with
      | none => simp [hs3]
      | some s3' =>
        have hcases := approveS3Result_cases w rec s3' hs3
        have hkey : s3Get s3' key = s3Get w.s3 key := by
          rcases hcases with h | ⟨c, hc⟩ | ⟨c, hc⟩
          · rw [h]
          · rw [hc]; exact s3Get_s3Put_ne _ _ _ _ hk1
          · rw [hc]; exact s3Get_s3Put_ne _ _ _ _ hk2
        cases hdb : env.dbOk <;> simpa [hs3, hdb] using hkey
  · intro rec hmem hne
    unfold apiMlApprove
    cases hfind : w.recs.find? (fun r2 => decide (r2.recId = recId ∧ r2.status = "PENDING")) with
    | none => simpa using hmem
    | some rec2 =>
      cases hs3 : approveS3Result w rec2 with
      | none => simpa [hs3] using hmem
      | some s3' =>
        cases hdb : env.dbOk
        · simpa [hs3, hdb] using hmem
        · simp only [hs3, hdb, if_pos]
          refine List.mem_map.mpr ⟨rec, hmem, ?_⟩
          simp [hne]
  · intro now sendOk trig
    unfold apiMlApply
    cases sendOk <;> simp

/-- Witness for `approvalIsolation` at a concrete world: approving the
pending threshold recommendation leaves the notification channel empty and
an unrelated object key untouched, and a subsequent apply appends exactly
the single reload notification. -/
theorem approvalIsolationWitness :
    (((apiMlApprove ⟨"t1", true⟩ "r1" "alice"
        ⟨[("other.json", Val.null),
          ("configs/call-classifications.json",
            vdict [("churn_detection", vdict [("threshold", .num (mkRat 7 10))])])], [],
          [⟨"r1", "churn_threshold", vdict [("recommended_value", .num 40)], "PENDING",
            none, none, none⟩]⟩).1).notifications = []) ∧
    (((apiMlApply "t2" true "bob"
        ⟨[("other.json", Val.null)], [], []⟩).1).notifications =
      [⟨"reload_configs", "bob", "t2"⟩]) := by
  have h := approvalIsolation ⟨"t1", true⟩ "r1" "alice"
    ⟨[("other.json", Val.null),
      ("configs/call-classifications.json",
        vdict [("churn_detection", vdict [("threshold", .num (mkRat 7 10))])])], [],
      [⟨"r1", "churn_threshold", vdict [("recommended_value", .num 40)], "PENDING",
        none, none, none⟩]⟩
  have h2 := (h.2.2.2 "t2" true "bob").2.2 rfl
  exact ⟨h.1, by
    have h3 := approvalIsolation ⟨"t0", true⟩ "rX" "carol" ⟨[("other.json", Val.null)], [], []⟩
    simpa using (h3.2.2.2 "t2" true "bob").2.2 rfl⟩

/-! ## C7 — alert-history state machine -/

theorem sentimentMapGet_range (s : String) :
    sentimentMapGet s = 2 ∨ sentimentMapGet s = 3 ∨ sentimentMapGet s = 4 := by
  unfold sentimentMapGet
  cases hfind : sentimentMap.find? (fun kv => kv.1 = s) with
  | none => simp
  | some kv =>
    have hmem := List.mem_of_find?_eq_some hfind
    simp only [sentimentMap, List.mem_cons, List.not_mem_nil, or_false] at hmem
    rcases hmem with rfl | rfl | rfl | rfl | rfl | rfl | rfl | rfl | rfl <;> simp

/-- Claim C5, counterexample: the numeric sentiment 7 is stored as 7 — there
is no clamp into 1..5. -/
theorem sentimentSevenUnclamped :
    sentimentOf [("sentiment", .num 7)] = some 7 ∧
    ¬ ((1 : Int) ≤ 7 ∧ (7 : Int) ≤ 5) := by
  constructor
  · rfl
  · decide

/-- Claim C5 as amended: a missing sentiment yields 3; a string sentiment
goes through the fixed table (lower-cased and stripped, default 3), always
landing in 2..4; a numeric sentiment passes through `int()` truncation with
no clamp whatsoever (so values outside 1..5 are stored as-is); a dict
sentiment contributes its `overall` field (default 3) as the raw value. -/
theorem sentimentNormalization (r : PyDict) :
    (r.find? (fun kv => kv.1 = "sentiment") = none → sentimentOf r = some 3) ∧
    (∀ s, pyGetD r "sentiment" (vdict []) = .str s →
      sentimentOf r = some (sentimentMapGet (pyTrim (pyLower s))) ∧
      (sentimentMapGet (pyTrim (pyLower s)) = 2 ∨ sentimentMapGet (pyTrim (pyLower s)) = 3 ∨
        sentimentMapGet (pyTrim (pyLower s)) = 4)) ∧
    (∀ q : ℚ, pyGetD r "sentiment" (vdict []) = .num q →
      sentimentOf r = some (if q = 0 then 3 else q.num.tdiv q.den)) ∧
    (∀ kvs, pyGetD r "sentiment" (vdict []) = .dict kvs →
      sentimentRawOf r = pyGetD kvs.toList "overall" (.num 3)) := by
  refine ⟨?_, ?_, ?_, ?_⟩
  · intro hnone
    unfold sentimentOf sentimentRawOf pyGetD
    rw [hnone]
    rfl
  · intro s hs
    refine ⟨?_, sentimentMapGet_range _⟩
    unfold sentimentOf sentimentRawOf
    rw [hs]
    by_cases hempty : s = ""
    · subst hempty
      norm_num [Val.truthy, pyInt, Rat.num_ofNat, Rat.den_ofNat]
      decide
    · simp [Val.truthy, hempty]
  · intro q hq
    unfold sentimentOf sentimentRawOf
    rw [hq]
    by_cases hzero : q = 0
    · subst hzero
      norm_num [Val.truthy, pyInt]
    · simp only [Val.truthy]
      have : (decide ¬ q = 0) = true := by simp [hzero]
      simp [hzero, pyInt]
  · intro kvs hkvs
    unfold sentimentRawOf
    rw [hkvs]

/-- Witness for `sentimentNormalization`: the string sentiment positive maps
to 4, and a payload without a sentiment key yields 3. -/
theorem sentimentNormalizationWitness :
    sentimentOf [("sentiment", .str "positive")] =
      some (sentimentMapGet (pyTrim (pyLower "positive"))) ∧
    sentimentOf [("other", Val.null)] = some 3 := by
  constructor
  · exact ((sentimentNormalization [("sentiment", .str "positive")]).2.1 "positive" rfl).1
  · exact (sentimentNormalization [("other", Val.null)]).1 rfl

/-! ## C6 — churn score normalisation -/

/-- Claim C6, counterexample: a `churn_confidence` of 1.5 is persisted to
`CONVERSATION_SUMMARY` as churn score 150, above the claimed 0..100 clamp. -/
theorem churnScoreExceedsHundred :
    ((writeMlResultWith mlEnvOk "CALL"
        [("callId", .str "C9"), ("churn_confidence", .num (mkRat 3 2))]
        DestState.empty).2.convSummary.map (fun row => row.churnScore)) =
      [.num 150] ∧ ¬ ((150 : ℚ) ≤ 100) := by
  constructor
  · rfl
  · decide

/-! ## C4 — inbound routing derivation -/

theorem pyGetD_pySet (r : PyDict) (k0 : String) (v : Val) (k : String) (d : Val) :
    pyGetD (pySet r k0 v) k d = if k = k0 then v else pyGetD r k d := by
  by_cases hk : k = k0
  · subst hk
    rw [if_pos rfl]
    unfold pySet
    by_cases hany : (r.any (fun kv => decide (kv.1 = k))) = true
    · rw [if_pos hany]
      unfold pyGetD
      rw [List.find?_map]
      have hfun : ((fun kv : String × Val => decide (kv.1 = k)) ∘
          fun kv => if kv.1 = k then (k, v) else kv) =
          fun kv : String × Val => decide (kv.1 = k) := by
        funext kv
        by_cases hkv : kv.1 = k
        · simp [hkv]
        · simp [hkv]
      rw [hfun]
      cases hf : List.find? (fun kv : String × Val => decide (kv.1 = k)) r with
      | none =>
        exfalso
        rcases List.any_eq_true.mp hany with ⟨kv, hmem, hkv⟩
        have := List.find?_eq_none.mp hf kv hmem
        exact this hkv
      | some kv0 =>
        have hk0 : kv0.1 = k := by simpa using List.find?_some hf
        simp [hk0]
    · rw [if_neg hany]
      unfold pyGetD
      rw [List.find?_append]
      have hnone : List.find? (fun kv : String × Val => decide (kv.1 = k)) r = none := by
        rw [List.find?_eq_none]
        intro kv hmem hkv
        exact hany (List.any_eq_true.mpr ⟨kv, hmem, hkv⟩)
      simp [hnone]
  · rw [if_neg hk]
    unfold pyGetD pySet
    rw [find?_assoc_update_ne r k k0 v hk]

theorem pyGet_pySet_sourceId (r : PyDict) (v : Val) (k : String)
    (hk : k ≠ "sourceId") : pyGet (pySet r "sourceId" v) k = pyGet r k := by
  unfold pyGet
  rw [pyGetD_pySet, if_neg hk]

theorem sentimentRawOf_sourceId (r : PyDict) (v : Val) :
    sentimentRawOf (pySet r "sourceId" v) = sentimentRawOf r := by
  unfold sentimentRawOf
  rw [pyGetD_pySet]
  simp

theorem sentimentOf_sourceId (r : PyDict) (v : Val) :
    sentimentOf (pySet r "sourceId" v) = sentimentOf r := by
  unfold sentimentOf
  rw [sentimentRawOf_sourceId]

theorem classificationOf_sourceId (r : PyDict) (v : Val) :
    classificationOf (pySet r "sourceId" v) = classificationOf r := by
  unfold classificationOf
  rw [pyGetD_pySet, pyGetD_pySet]
  simp

theorem summaryValOf_sourceId (r : PyDict) (v : Val) :
    summaryValOf (pySet r "sourceId" v) = summaryValOf r := by
  unfold summaryValOf
  rw [pyGetD_pySet]
  simp

theorem dictaParamsOf_sourceId (r : PyDict) (v : Val) :
    dictaParamsOf (pySet r "sourceId" v) = dictaParamsOf r := by
  unfold dictaParamsOf
  rw [sentimentOf_sourceId, classificationOf_sourceId, summaryValOf_sourceId]
  unfold pyGet
  simp only [pyGetD_pySet]
  simp

theorem churnScoreValOf_sourceId (r : PyDict) (v : Val) :
    churnScoreValOf (pySet r "sourceId" v) = churnScoreValOf r := by
  unfold churnScoreValOf
  rw [pyGetD_pySet]
  simp

theorem sentimentValueOf_sourceId (r : PyDict) (v : Val) :
    sentimentValueOf (pySet r "sourceId" v) = sentimentValueOf r := by
  unfold sentimentValueOf
  rw [pyGetD_pySet]
  simp

theorem catLabelsOf_sourceId (r : PyDict) (v : Val) (cls : Val) :
    catLabelsOf (pySet r "sourceId" v) cls = catLabelsOf r cls := by
  unfold catLabelsOf
  rw [pyGetD_pySet, pyGetD_pySet]
  simp

theorem writeMlResultWith_sourceId (env : MlEnv) (sourceType : String)
    (r : PyDict) (v : Val) (s : DestState) :
    writeMlResultWith env sourceType (pySet r "sourceId" v) s =
      writeMlResultWith env sourceType r s := by
  unfold writeMlResultWith
  rw [dictaParamsOf_sourceId, churnScoreValOf_sourceId, sentimentValueOf_sourceId]
  simp only [pyGetD_pySet]
  simp only [catLabelsOf_sourceId]
  simp

theorem derivedSourceType_sourceId (pending : List (String × String))
    (r : PyDict) (v : Val) :
    derivedSourceType pending (pySet r "sourceId" v) = derivedSourceType pending r := by
  unfold derivedSourceType
  rw [pyGetD_pySet]
  simp

/-- Claim C4, counterexample: an inbound result that carries
`sourceId = sf_oc` — whose catalog entry maps to destination tag WAPP — is
written with tag CALL when no pending entry exists: the payload field is
never consulted. -/
theorem routingIgnoresPayloadSourceId :
    (((writeMlResult mlEnvOk [] [("callId", .str "X1"), ("sourceId", .str "sf_oc")]
        DestState.empty).2.2.convSummary.map (fun row => row.sourceType)) = ["CALL"]) ∧
    (lookupSource "sf_oc").map (fun src => src.destSourceType) = some "WAPP" ∧
    ("CALL" : String) ≠ "WAPP" := by
  refine ⟨rfl, rfl, by decide⟩

/-- Claim C4 as amended: the destination tag is derived solely from the
process-local `pending_source_types` map — the entry is removed on use and
the default is CALL — and the payload's `source_catalog_id` field has no
influence at all: rewriting it changes nothing about the write. -/
theorem routingDerivation (env : MlEnv) (pending : List (String × String))
    (r : PyDict) (v : Val) (s : DestState) :
    writeMlResult env pending (pySet r "sourceId" v) s =
      writeMlResult env pending r s ∧
    (pending.find? (fun kv => kv.1 = pyStr (pyGetD r "callId" (.str "UNKNOWN"))) = none →
      derivedSourceType pending r = "CALL" ∧
      (writeMlResult env pending r s).2.2 = (writeMlResultWith env "CALL" r s).2) := by
  constructor
  · unfold writeMlResult
    rw [writeMlResultWith_sourceId, derivedSourceType_sourceId, pyGetD_pySet]
    simp
  · intro hnone
    have htag : derivedSourceType pending r = "CALL" := by
      unfold derivedSourceType
      rw [hnone]
      rfl
    refine ⟨htag, ?_⟩
    unfold writeMlResult
    rw [htag]

/-- Witness for `routingDerivation` at a concrete payload with no pending
entry: the write goes through with tag CALL. -/
theorem routingDerivationWitness :
    derivedSourceType [] [("callId", .str "X1")] = "CALL" :=
  ((routingDerivation mlEnvOk [] [("callId", .str "X1")] Val.null
    DestState.empty).2 rfl).1

/-! ## C10 — pending-source-type removal on ingest -/

theorem find?_filter_key_none {β : Type} (l : List (String × β)) (cid : String) :
    (l.filter (fun kv => kv.1 ≠ cid)).find? (fun kv => kv.1 = cid) = none := by
  rw [List.find?_eq_none]
  intro kv hmem
  have hne := (List.mem_filter.mp hmem).2
  simp only [decide_not] at hne
  simp only [decide_eq_true_eq]
  intro hkv
  rw [hkv] at hne
  simp at hne

theorem writeMlResultWith_dictaFail (env : MlEnv) (sourceType : String)
    (r : PyDict) (s : DestState) (hd : env.dictaDbOk = false) :
    (writeMlResultWith env sourceType r s).2 = s := by
  unfold writeMlResultWith
  cases dictaParamsOf r <;> simp [hd]

/-- Claim C10: `write_ml_result` pops the pending-source-type entry for the
result's call id as its first action — even when every destination write
fails and the state is untouched — so any redelivery of the same result
derives the default tag CALL, whatever tag dispatch had recorded. -/
theorem writeMlResult_decomposed (env : MlEnv) (pending : List (String × String))
    (r : PyDict) (s : DestState) :
    writeMlResult env pending r s =
      ((writeMlResultWith env (derivedSourceType pending r) r s).1,
       pending.filter (fun kv => kv.1 ≠ pyStr (pyGetD r "callId" (.str "UNKNOWN"))),
       (writeMlResultWith env (derivedSourceType pending r) r s).2) := by
  unfold writeMlResult
  cases writeMlResultWith env (derivedSourceType pending r) r s
  rfl

theorem pendingPoppedBeforeWrite (env : MlEnv) (pending : List (String × String))
    (r : PyDict) (s : DestState) :
    ((writeMlResult env pending r s).2.1.find?
      (fun kv => kv.1 = pyStr (pyGetD r "callId" (.str "UNKNOWN")))) = none ∧
    derivedSourceType (writeMlResult env pending r s).2.1 r = "CALL" ∧
    (env.dictaDbOk = false →
      (writeMlResult env pending r s).2.2 = s ∧
      (writeMlResult env pending r s).1 = false) := by
  refine ⟨?_, ?_, ?_⟩
  · rw [writeMlResult_decomposed]
    exact find?_filter_key_none pending (pyStr (pyGetD r "callId" (.str "UNKNOWN")))
  · unfold derivedSourceType
    rw [writeMlResult_decomposed]
    rw [show ((writeMlResultWith env (derivedSourceType pending r) r s).1,
        pending.filter (fun kv => kv.1 ≠ pyStr (pyGetD r "callId" (.str "UNKNOWN"))),
        (writeMlResultWith env (derivedSourceType pending r) r s).2).2.1 =
        pending.filter (fun kv => kv.1 ≠ pyStr (pyGetD r "callId" (.str "UNKNOWN"))) from rfl]
    rw [find?_filter_key_none pending (pyStr (pyGetD r "callId" (.str "UNKNOWN")))]
    rfl
  · intro hd
    rw [writeMlResult_decomposed]
    refine ⟨writeMlResultWith_dictaFail env _ r s hd, ?_⟩
    unfold writeMlResultWith
    cases dictaParamsOf r <;> simp [hd]

/-- Witness for `pendingPoppedBeforeWrite`: after a failed write whose
dispatch had recorded tag WAPP, the entry is gone and the rederived tag is
CALL. -/
theorem pendingPoppedBeforeWriteWitness :
    ((writeMlResult ⟨fun _ => none, fun _ _ => none, false, true, true, "T0"⟩
        [("X1", "WAPP")] [("callId", .str "X1")] DestState.empty).2.2 = DestState.empty) ∧
    derivedSourceType
      (writeMlResult ⟨fun _ => none, fun _ _ => none, false, true, true, "T0"⟩
        [("X1", "WAPP")] [("callId", .str "X1")] DestState.empty).2.1
      [("callId", .str "X1")] = "CALL" := by
  have h := pendingPoppedBeforeWrite ⟨fun _ => none, fun _ _ => none, false, true, true, "T0"⟩
    [("X1", "WAPP")] [("callId", .str "X1")] DestState.empty
  exact ⟨(h.2.2 rfl).1, h.2.1⟩

/-! ## C3 — dispatch guarantee -/

/-- Claim C3, counterexample: when the queue send succeeds but the
processed-store insert fails, the failure is swallowed inside
`mark_call_processed_for_source`, so dispatch returns the message token while
the processed-ID store does not contain the source id. -/
theorem dispatchTokenWithoutMark :
    ((sendToSqsForSource ⟨some "m1", false, true, "boom"⟩
        ⟨"CONVERSATION_ASSEMBLY", "CALL001", Val.null, Val.null, none, [], 0, "T0",
          "on-premises-cdc", some "verint"⟩ "verint" ⟨[], [], [], 0, 0⟩).1 = some "m1") ∧
    ("CALL001" ∉ (sendToSqsForSource ⟨some "m1", false, true, "boom"⟩
        ⟨"CONVERSATION_ASSEMBLY", "CALL001", Val.null, Val.null, none, [], 0, "T0",
          "on-premises-cdc", some "verint"⟩ "verint" ⟨[], [], [], 0, 0⟩).2.processed) := by
  refine ⟨rfl, ?_⟩
  decide

/-- Claim C3 as amended: on a failed queue send the dispatcher returns no
token and leaves the processed-ID store untouched, and an `SQS_SEND_FAILED`
error-log entry for the conversation's call id is appended when the
error-log insert itself succeeds (`log_error` swallows its own failure, so a
send failure may leave no log row); on a successful send it returns the
message token, and the store contains the call id before return provided the
store insert itself succeeds (a failing insert is swallowed — the
counterexample — and an already-present id needs no insert). -/
theorem dispatchGuarantee (env : DispatchEnv) (c : Conv) (sourceId : String)
    (st : SvcState) (src : SourceEntry) (hsrc : lookupSource sourceId = some src) :
    (env.sendResult = none →
      (sendToSqsForSource env c sourceId st).1 = none ∧
      (sendToSqsForSource env c sourceId st).2.processed = st.processed ∧
      (env.logDbOk = true →
        (sendToSqsForSource env c sourceId st).2.errorLog =
          st.errorLog ++ [⟨c.callId, env.errText, "SQS_SEND_FAILED"⟩]) ∧
      (env.logDbOk = false →
        (sendToSqsForSource env c sourceId st).2.errorLog = st.errorLog)) ∧
    (∀ m, env.sendResult = some m → env.markDbOk = true →
      (sendToSqsForSource env c sourceId st).1 = some m ∧
      c.callId ∈ (sendToSqsForSource env c sourceId st).2.processed) := by
  constructor
  · intro hsend
    unfold sendToSqsForSource logError
    rw [hsend]
    refine ⟨rfl, rfl, ?_, ?_⟩ <;> intro hlog <;> simp [hlog]
  · intro m hsend hmark
    unfold sendToSqsForSource
    rw [hsend, hsrc]
    refine ⟨rfl, ?_⟩
    unfold markCallProcessedForSource
    by_cases hmem : c.callId ∈ st.processed
    · simp [hmem]
    · simp only [hmem]
      rw [if_neg (by simp [hmem]), if_pos hmark]
      simp

/-- Witness for `dispatchGuarantee`: a successful send with a healthy store
insert marks the id before returning the token. -/
theorem dispatchGuaranteeWitness :
    (sendToSqsForSource ⟨some "m1", true, true, ""⟩
      ⟨"CONVERSATION_ASSEMBLY", "CALL001", Val.null, Val.null, none, [], 0, "T0",
        "on-premises-cdc", some "verint"⟩ "verint" ⟨[], [], [], 0, 0⟩).1 = some "m1" ∧
    "CALL001" ∈ (sendToSqsForSource ⟨some "m1", true, true, ""⟩
      ⟨"CONVERSATION_ASSEMBLY", "CALL001", Val.null, Val.null, none, [], 0, "T0",
        "on-premises-cdc", some "verint"⟩ "verint" ⟨[], [], [], 0, 0⟩).2.processed :=
  (dispatchGuarantee ⟨some "m1", true, true, ""⟩
    ⟨"CONVERSATION_ASSEMBLY", "CALL001", Val.null, Val.null, none, [], 0, "T0",
      "on-premises-cdc", some "verint"⟩ "verint" ⟨[], [], [], 0, 0⟩ verintSource
    (by decide)).2 "m1" rfl rfl

/-! ## C2 — assembly gating -/

/-- Claim C2, counterexample: the CDC assembler emits a document for eleven
empty-text fragments that meet the count and channel gates — the claimed
at-least-one-non-empty-text conjunct is not checked, and the emitted document
carries zero messages. -/
theorem assemblyEmitsWithNoText :
    ((assembleConversationForSource "verint" verintSource "CALL002" emptyTextRows
        "T0").map Conv.messages) = some [] ∧
    emptyTextRows.all (fun f => ! f.textKept) = true ∧
    emptyTextRows.length = 11 := by
  refine ⟨rfl, ?_, ?_⟩ <;> decide

/-- Claim C2 as amended: the CDC per-source assembler emits a document iff
the fragment set is non-empty, meets the per-source minimum segment count
and covers the required channels — empty-text fragments are skipped from the
message list without causing failure, and a conversation whose texts are all
empty is still emitted (with zero messages); only the backfill assembler
additionally requires at least one fragment with non-empty trimmed text. -/
theorem assemblyGating :
    (∀ (sourceId : String) (src : SourceEntry) (recordId : String)
        (rows : List Frag) (now : String),
      (assembleConversationForSource sourceId src recordId rows now).isSome = true ↔
        (rows ≠ [] ∧ src.minSegments ≤ rows.length ∧
          requiredSubset src.requiredChannels rows = true)) ∧
    (∀ (minSegments : Nat) (callId : String) (rows : List Frag) (now : String),
      (backfillAssembleConversation minSegments callId rows now).isSome = true ↔
        (minSegments ≤ rows.length ∧ "A" ∈ observedChannels rows ∧
          "C" ∈ observedChannels rows ∧ ∃ f ∈ rows, f.textKept = true)) := by
  constructor
  · intro sourceId src recordId rows now
    unfold assembleConversationForSource
    cases rows with
    | nil => simp
    | cons first rest =>
      dsimp only
      by_cases hlen : (first :: rest).length < src.minSegments
      · rw [if_pos hlen]
        simp only [Option.isSome_none, Bool.false_eq_true, false_iff]
        rintro ⟨-, hle, -⟩
        omega
      · rw [if_neg hlen]
        by_cases hreq : requiredSubset src.requiredChannels (first :: rest) = true
        · rw [if_neg (by simp [hreq])]
          simp only [Option.isSome_some, true_iff]
          exact ⟨List.cons_ne_nil first rest, by omega, hreq⟩
        · rw [if_pos (by simp [hreq])]
          simp only [Option.isSome_none, Bool.false_eq_true, false_iff]
          rintro ⟨-, -, h⟩
          exact hreq h
  · intro minSegments callId rows now
    unfold backfillAssembleConversation
    by_cases hlen : rows.length < minSegments
    · rw [if_pos hlen]
      simp only [Option.isSome_none, Bool.false_eq_true, false_iff]
      rintro ⟨hle, -⟩
      omega
    · rw [if_neg hlen]
      by_cases hch : "A" ∈ observedChannels rows ∧ "C" ∈ observedChannels rows
      · rw [if_neg (by simp [hch])]
        by_cases hmsg : (rows.filterMap (fun f =>
            if f.textKept then some (⟨f.owner, pyTrim (f.text.getD ""), f.time⟩ : Msg)
            else none)).isEmpty = true
        · rw [if_pos hmsg]
          simp only [Option.isSome_none, Bool.false_eq_true, false_iff]
          rintro ⟨-, -, -, f, hf, hkept⟩
          rw [List.isEmpty_iff, List.filterMap_eq_nil_iff] at hmsg
          have := hmsg f hf
          rw [if_pos hkept] at this
          exact Option.noConfusion this
        · rw [if_neg hmsg]
          rw [List.isEmpty_iff, List.filterMap_eq_nil_iff] at hmsg
          push_neg at hmsg
          rcases hmsg with ⟨f, hf, hne⟩
          have hkept : f.textKept = true := by
            by_contra hk
            exact hne (by rw [if_neg hk])
          cases rows with
          | nil => exact absurd hf (List.not_mem_nil f)
          | cons first rest =>
            simp only [Option.isSome_some, true_iff]
            exact ⟨by omega, hch.1, hch.2, f, hf, hkept⟩
      · rw [if_pos (by simp [hch])]
        simp only [Option.isSome_none, Bool.false_eq_true, false_iff]
        rintro ⟨-, hA, hC, -⟩
        exact hch ⟨hA, hC⟩

/-- Witness for `assemblyGating`: a two-fragment chat with both required
channels and one non-empty text passes both assemblers when the minimum is
met. -/
theorem assemblyGatingWitness :
    (assembleConversationForSource "sf_oc" sfOcSource "CASE7"
      [⟨Val.null, Val.null, some "C", none, some "hi"⟩,
       ⟨Val.null, Val.null, some "A", none, some ""⟩,
       ⟨Val.null, Val.null, some "C", none, some "ok"⟩,
       ⟨Val.null, Val.null, some "C", none, some ""⟩,
       ⟨Val.null, Val.null, some "C", none, some "bye"⟩] "T0").isSome = true :=
  ((assemblyGating.1 "sf_oc" sfOcSource "CASE7"
    [⟨Val.null, Val.null, some "C", none, some "hi"⟩,
     ⟨Val.null, Val.null, some "A", none, some ""⟩,
     ⟨Val.null, Val.null, some "C", none, some "ok"⟩,
     ⟨Val.null, Val.null, some "C", none, some ""⟩,
     ⟨Val.null, Val.null, some "C", none, some "bye"⟩] "T0").mpr
    (by refine ⟨by decide, by decide, by decide⟩))

/-! ## C1 — ingest idempotence -/

theorem filter_append_false {α : Type} (l : List α) (p : α → Bool) (xs : List α)
    (hxs : ∀ x ∈ xs, p x = false) :
    (l.filter p ++ xs).filter p = l.filter p := by
  rw [List.filter_append]
  have h1 : xs.filter p = [] := by
    rw [List.filter_eq_nil_iff]
    intro a ha
    simp [hxs a ha]
  have h2 : (l.filter p).filter p = l.filter p := by
    rw [List.filter_eq_self]
    intro a ha
    exact (List.mem_filter.mp ha).2
  rw [h1, h2, List.append_nil]

theorem catLabelsOf_nodup (r : PyDict) (cls : Val) (labels : List Val)
    (h : catLabelsOf r cls = some labels) : labels.Nodup := by
  unfold catLabelsOf at h
  set a0 := pyGetD r "classifications" (vlist []) with ha0
  dsimp only at h
  split at h
  · rename_i xs heq
    rw [Option.some.injEq] at h
    rw [← h]
    exact List.nodup_dedup _
  · rename_i kvs heq
    rw [Option.some.injEq] at h
    rw [← h]
    exact List.nodup_dedup _
  · exact Option.noConfusion h

theorem writeMlResultWith_success (env : MlEnv) (tag : String) (r : PyDict)
    (s : DestState) (hsucc : (writeMlResultWith env tag r s).1 = true) :
    ∃ p churn labels,
      dictaParamsOf r = some p ∧ env.dictaDbOk = true ∧
      churnScoreValOf r = some churn ∧ env.convDbOk = true ∧
      catLabelsOf r p.classificationRaw = some labels ∧ env.catDbOk = true := by
  unfold writeMlResultWith at hsucc
  cases hdp : dictaParamsOf r with
  | none => simp [hdp] at hsucc
  | some p =>
    cases hdd : env.dictaDbOk with
    | false => simp [hdp, hdd] at hsucc
    | true =>
      cases hch : churnScoreValOf r with
      | none => simp [hdp, hdd, hch] at hsucc
      | some churn =>
        cases hcv : env.convDbOk with
        | false => simp [hdp, hdd, hch, hcv] at hsucc
        | true =>
          cases hcat : catLabelsOf r p.classificationRaw with
          | none => simp [hdp, hdd, hch, hcv, hcat] at hsucc
          | some labels =>
            cases hcc : env.catDbOk with
            | false => simp [hdp, hdd, hch, hcv, hcat, hcc] at hsucc
            | true => exact ⟨p, churn, labels, rfl, rfl, rfl, rfl, hcat, rfl⟩

theorem writeMlResultWith_success_state (env : MlEnv) (tag : String) (r : PyDict)
    (s : DestState) (p : DictaParams) (churn : Val) (labels : List Val)
    (hdp : dictaParamsOf r = some p) (hdd : env.dictaDbOk = true)
    (hch : churnScoreValOf r = some churn) (hcv : env.convDbOk = true)
    (hcat : catLabelsOf r p.classificationRaw = some labels) (hcc : env.catDbOk = true) :
    writeMlResultWith env tag r s =
      (true,
       { dicta := s.dicta.filter
            (fun row => row.callId ≠ pyStr (pyGetD r "callId" (.str "UNKNOWN"))) ++
            [⟨pyStr (pyGetD r "callId" (.str "UNKNOWN")), p.customerId, p.subscriberNo,
              p.callTime, p.summary, p.sentiment, p.classificationTrunc,
              p.allClassifications, p.confidence, p.processingTime, p.modelVersion, env.now⟩]
         convSummary := s.convSummary.filter
            (fun row => ¬ (row.sourceId = pyGetD r "callId" (.str "UNKNOWN") ∧
              row.sourceType = tag)) ++
            [{ sourceType := tag, sourceId := pyGetD r "callId" (.str "UNKNOWN"),
               creationDate := env.now, summary := p.summary,
               satisfaction := pyGetD r "customer_satisfaction" (.num 3),
               sentiment := sentimentValueOf r,
               products := cleanJsonToCsv env.jsonLoads (pyGetD r "products" (.str ""))
               unresolvedIssues := cleanJsonToCsv env.jsonLoads
                 (pyGetD r "unresolved_issues" (.str ""))
               actionItems := extractActionItemsText env.jsonLoads
                 (pyGetD r "action_items" (.str "")) 500
               ban := ((env.srcRow tag (pyGetD r "callId" (.str "UNKNOWN"))).map
                 SrcRow.ban).getD .null
               subscriberNo := ((env.srcRow tag (pyGetD r "callId" (.str "UNKNOWN"))).map
                 SrcRow.subscriberNo).getD .null
               conversationTime := ((env.srcRow tag (pyGetD r "callId" (.str "UNKNOWN"))).map
                 SrcRow.textTime).getD .null
               churnScore := churn }]
         categories := s.categories.filter
            (fun row => ¬ (row.sourceId = pyGetD r "callId" (.str "UNKNOWN") ∧
              row.sourceType = tag)) ++
            labels.map (mkCategoryRow (pyGetD r "callId" (.str "UNKNOWN")) tag env.now) }) := by
  unfold writeMlResultWith
  simp [hdp, hdd, hch, hcv, hcat, hcc]

/-- Claim C1: applying one analytics result k times through `write_ml_result`
with a stable source id and destination tag is idempotent — the destination
state after the k-th apply equals the state after the first successful apply
— and that state holds at most one `DICTA_CALL_SUMMARY` row for the call id,
at most one `CONVERSATION_SUMMARY` row for the (source_type, source_id)
composite, and exactly one `CONVERSATION_CATEGORY` row per distinct
non-empty classification. -/
theorem ingestIdempotence (env : MlEnv) (tag : String) (r : PyDict) (s : DestState)
    (k : Nat) (hk : 1 ≤ k)
    (hsucc : (writeMlResultWith env tag r s).1 = true) :
    ((ingestStep env tag r)^[k]) s = ingestStep env tag r s ∧
    ((writeMlResultWith env tag r s).2.dicta.countP
      (fun row => decide (row.callId = pyStr (pyGetD r "callId" (.str "UNKNOWN"))))) ≤ 1 ∧
    ((writeMlResultWith env tag r s).2.convSummary.countP
      (fun row => decide (row.sourceId = pyGetD r "callId" (.str "UNKNOWN") ∧
        row.sourceType = tag))) ≤ 1 ∧
    (∃ p labels, dictaParamsOf r = some p ∧
      catLabelsOf r p.classificationRaw = some labels ∧ labels.Nodup ∧
      ((writeMlResultWith env tag r s).2.categories.filter
        (fun row => decide (row.sourceId = pyGetD r "callId" (.str "UNKNOWN") ∧
          row.sourceType = tag))) =
        labels.map (mkCategoryRow (pyGetD r "callId" (.str "UNKNOWN")) tag env.now)) := by
  obtain ⟨p, churn, labels, hdp, hdd, hch, hcv, hcat, hcc⟩ :=
    writeMlResultWith_success env tag r s hsucc
  have hstate := fun st => writeMlResultWith_success_state env tag r st p churn labels
    hdp hdd hch hcv hcat hcc
  have hstep : ∀ st : DestState, (writeMlResultWith env tag r st).2 =
      { dicta := st.dicta.filter
          (fun row => row.callId ≠ pyStr (pyGetD r "callId" (.str "UNKNOWN"))) ++
          [⟨pyStr (pyGetD r "callId" (.str "UNKNOWN")), p.customerId, p.subscriberNo,
            p.callTime, p.summary, p.sentiment, p.classificationTrunc,
            p.allClassifications, p.confidence, p.processingTime, p.modelVersion, env.now⟩]
        convSummary := st.convSummary.filter
          (fun row => ¬ (row.sourceId = pyGetD r "callId" (.str "UNKNOWN") ∧
            row.sourceType = tag)) ++
          [{ sourceType := tag, sourceId := pyGetD r "callId" (.str "UNKNOWN"),
             creationDate := env.now, summary := p.summary,
             satisfaction := pyGetD r "customer_satisfaction" (.num 3),
             sentiment := sentimentValueOf r,
             products := cleanJsonToCsv env.jsonLoads (pyGetD r "products" (.str ""))
             unresolvedIssues := cleanJsonToCsv env.jsonLoads
               (pyGetD r "unresolved_issues" (.str ""))
             actionItems := extractActionItemsText env.jsonLoads
               (pyGetD r "action_items" (.str "")) 500
             ban := ((env.srcRow tag (pyGetD r "callId" (.str "UNKNOWN"))).map
               SrcRow.ban).getD .null
             subscriberNo := ((env.srcRow tag (pyGetD r "callId" (.str "UNKNOWN"))).map
               SrcRow.subscriberNo).getD .null
             conversationTime := ((env.srcRow tag (pyGetD r "callId" (.str "UNKNOWN"))).map
               SrcRow.textTime).getD .null
             churnScore := churn }]
        categories := st.categories.filter
          (fun row => ¬ (row.sourceId = pyGetD r "callId" (.str "UNKNOWN") ∧
            row.sourceType = tag)) ++
          labels.map (mkCategoryRow (pyGetD r "callId" (.str "UNKNOWN")) tag env.now) } := by
    intro st
    rw [hstate st]
  have hidem : ingestStep env tag r (ingestStep env tag r s) = ingestStep env tag r s := by
    unfold ingestStep
    rw [hstep ((writeMlResultWith env tag r s).2), hstep s]
    congr 1
    · rw [filter_append_false]
      intro x hx
      simp only [List.mem_singleton] at hx
      subst hx
      simp
    · rw [filter_append_false]
      intro x hx
      simp only [List.mem_singleton] at hx
      subst hx
      simp
    · rw [filter_append_false]
      intro x hx
      rcases List.mem_map.mp hx with ⟨l, _, rfl⟩
      simp [mkCategoryRow]
  refine ⟨?_, ?_, ?_, ?_⟩
  · obtain ⟨j, rfl⟩ : ∃ j, k = j + 1 := ⟨k - 1, by omega⟩
    rw [Function.iterate_succ_apply]
    clear hk
    induction j with
    | zero => rfl
    | succ n ih =>
      rw [Function.iterate_succ_apply, hidem]
      exact ih
  · rw [hstep s, List.countP_append]
    have h0 : (List.filter (fun row : DictaRow =>
        decide (row.callId ≠ pyStr (pyGetD r "callId" (.str "UNKNOWN")))) s.dicta).countP
        (fun row => decide (row.callId = pyStr (pyGetD r "callId" (.str "UNKNOWN")))) = 0 := by
      rw [List.countP_eq_zero]
      intro a ha
      have := (List.mem_filter.mp ha).2
      simp at this ⊢
      tauto
    rw [h0]
    simp [List.countP_cons]
  · rw [hstep s, List.countP_append]
    have h0 : (List.filter (fun row : ConvSummaryRow =>
        decide (¬ (row.sourceId = pyGetD r "callId" (.str "UNKNOWN") ∧
          row.sourceType = tag))) s.convSummary).countP
        (fun row => decide (row.sourceId = pyGetD r "callId" (.str "UNKNOWN") ∧
          row.sourceType = tag)) = 0 := by
      rw [List.countP_eq_zero]
      intro a ha
      have := (List.mem_filter.mp ha).2
      simp at this ⊢
      tauto
    rw [h0]
    simp [List.countP_cons]
  · refine ⟨p, labels, hdp, hcat, catLabelsOf_nodup r p.classificationRaw labels hcat, ?_⟩
    rw [hstep s, List.filter_append]
    have h1 : (List.filter (fun row : CategoryRow =>
        decide (¬ (row.sourceId = pyGetD r "callId" (.str "UNKNOWN") ∧
          row.sourceType = tag))) s.categories).filter
        (fun row => decide (row.sourceId = pyGetD r "callId" (.str "UNKNOWN") ∧
          row.sourceType = tag)) = [] := by
      rw [List.filter_eq_nil_iff]
      intro a ha
      have := (List.mem_filter.mp ha).2
      simp at this ⊢
      tauto
    have h2 : (labels.map (mkCategoryRow (pyGetD r "callId" (.str "UNKNOWN")) tag
        env.now)).filter
        (fun row => decide (row.sourceId = pyGetD r "callId" (.str "UNKNOWN") ∧
          row.sourceType = tag)) =
        labels.map (mkCategoryRow (pyGetD r "callId" (.str "UNKNOWN")) tag env.now) := by
      rw [List.filter_eq_self]
      intro a ha
      rcases List.mem_map.mp ha with ⟨l, _, rfl⟩
      simp [mkCategoryRow]
    rw [h1, h2, List.nil_append]

/-- Witness for `ingestIdempotence`: a concrete two-category result applied
twice lands in the same state as applied once. -/
theorem ingestIdempotenceWitness :
    ((ingestStep mlEnvOk "CALL"
      [("callId", .str "W1"),
       ("classification", vdict [("primary", .str "BILLING"),
          ("all", vlist [.str "BILLING", .str "OFFER"])])])^[2]) DestState.empty =
    ingestStep mlEnvOk "CALL"
      [("callId", .str "W1"),
       ("classification", vdict [("primary", .str "BILLING"),
          ("all", vlist [.str "BILLING", .str "OFFER"])])] DestState.empty :=
  (ingestIdempotence mlEnvOk "CALL"
    [("callId", .str "W1"),
     ("classification", vdict [("primary", .str "BILLING"),
        ("all", vlist [.str "BILLING", .str "OFFER"])])]
    DestState.empty 2 (by decide) (by rfl)).1

/-- Claim C6 as amended: the persisted churn score is `churn_confidence`
times 100 exactly, with no clamp — it lies inside 0..100 precisely when the
confidence already lies inside 0..1 — and a missing confidence defaults to
0; on a successful write the last `CONVERSATION_SUMMARY` row carries that
unclamped product. -/
theorem churnScoreNormalization (r : PyDict) (q : ℚ)
    (hq : pyGetD r "churn_confidence" (.num 0) = .num q) :
    churnScoreValOf r = some (.num (q * 100)) ∧
    ((0 ≤ q ∧ q ≤ 1) → (0 ≤ q * 100 ∧ q * 100 ≤ 100)) ∧
    (∀ env tag s, (writeMlResultWith env tag r s).1 = true →
      ∃ rest row, (writeMlResultWith env tag r s).2.convSummary = rest ++ [row] ∧
        (row : ConvSummaryRow).churnScore = .num (q * 100)) := by
  have hval : churnScoreValOf r = some (.num (q * 100)) := by
    unfold churnScoreValOf
    rw [hq]
    show some (Val.num (qMul100 q)) = some (Val.num (q * 100))
    rw [qMul100_eq]
  refine ⟨hval, ?_, ?_⟩
  · rintro ⟨h0, h1⟩
    constructor
    · exact mul_nonneg h0 (by norm_num)
    · calc q * 100 ≤ 1 * 100 := mul_le_mul_of_nonneg_right h1 (by norm_num)
        _ = 100 := by norm_num
  · intro env tag s hsucc
    obtain ⟨p, churn, labels, hdp, hdd, hch, hcv, hcat, hcc⟩ :=
      writeMlResultWith_success env tag r s hsucc
    have hchurn : churn = .num (q * 100) := by
      rw [hval] at hch
      exact (Option.some.inj hch).symm
    rw [writeMlResultWith_success_state env tag r s p churn labels hdp hdd hch hcv hcat hcc]
    exact ⟨_, _, rfl, hchurn⟩

/-- Witness for `churnScoreNormalization` at confidence one half: the stored
score is 50 and the bounds hold. -/
theorem churnScoreNormalizationWitness :
    churnScoreValOf [("churn_confidence", .num (mkRat 1 2))] =
      some (.num (mkRat 1 2 * 100)) ∧
    (0 ≤ mkRat 1 2 * 100 ∧ mkRat 1 2 * 100 ≤ 100) := by
  have h := churnScoreNormalization [("churn_confidence", .num (mkRat 1 2))] (mkRat 1 2) rfl
  refine ⟨h.1, h.2.1 ⟨?_, ?_⟩⟩ <;> norm_num [Rat.mkRat_eq_div]
